import Mathlib

/-!
Verification of the DeepSeekGenerator repository: the Kraken Futures
request-authentication code (`src/kraken_api.py` and
`src/kraken_api/client.py`) and the DeepSeek signal-acquisition pipeline
(`src/deepseek_signal/signalGen.py`).

Python strings that the signer hashes byte-by-byte are modelled as
`List Char`; their UTF-8 bytes as `List Nat` (each < 256).  Python floats
are modelled as exact rationals (`ℚ`), Python dicts holding the parsed
model response as a structure of `Option` fields (`none` = key absent).
The external cryptographic primitives (`hashlib.sha256`,
`hmac.new(..., hashlib.sha512)`) are opaque parameters: every theorem
about the signer holds for all choices of these functions.
-/

namespace Spec2Proof

/-- UTF-8 encoding of a single Unicode scalar value (models Python
`str.encode()` for one character). -/
def utf8EncodeChar (n : Nat) : List Nat :=
  if n < 128 then [n]
  else if n < 2048 then [192 + n / 64, 128 + n % 64]
  else if n < 65536 then [224 + n / 4096, 128 + n / 64 % 64, 128 + n % 64]
  else [240 + n / 262144, 128 + n / 4096 % 64, 128 + n / 64 % 64, 128 + n % 64]

/-- UTF-8 bytes of a string (models Python `message.encode('utf-8')`). -/
def utf8 : List Char → List Nat
  | [] => []
  | c :: cs => utf8EncodeChar c.toNat ++ utf8 cs

theorem utf8_append (a b : List Char) : utf8 (a ++ b) = utf8 a ++ utf8 b := by
  induction a with
  | nil => simp [utf8]
  | cons c cs ih => simp [utf8, ih]

/-- Lower-case hexadecimal digit characters. -/
def hexDigitChar (n : Nat) : Char := ("0123456789abcdef").toList.getD n '0'

/-- Lower-case hex encoding of a byte list (models Python `bytes.hex()`). -/
def hexEncode : List Nat → List Char
  | [] => []
  | b :: bs => hexDigitChar (b / 16) :: hexDigitChar (b % 16) :: hexEncode bs

/-- Standard base64 alphabet. -/
def b64Alphabet : List Char :=
  ("ABCDEFGHIJKLMNOPQRSTUVWXYZabcdefghijklmnopqrstuvwxyz0123456789+/").toList

/-- Character of a 6-bit group. -/
def b64Char (n : Nat) : Char := b64Alphabet.getD n 'A'

/-- Base64 encoding with padding (models Python `base64.b64encode`). -/
def b64encode : List Nat → List Char
  | [] => []
  | [a] => [b64Char (a / 4), b64Char (a % 4 * 16), '=', '=']
  | [a, b] => [b64Char (a / 4), b64Char (a % 4 * 16 + b / 16), b64Char (b % 16 * 4), '=']
  | a :: b :: c :: rest =>
      b64Char (a / 4) :: b64Char (a % 4 * 16 + b / 16) ::
      b64Char (b % 16 * 4 + c / 64) :: b64Char (c % 64) :: b64encode rest

/-- Value of one hexadecimal digit character, `none` if it is not one. -/
def hexVal (c : Char) : Option Nat :=
  if '0' ≤ c ∧ c ≤ '9' then some (c.toNat - 48)
  else if 'a' ≤ c ∧ c ≤ 'f' then some (c.toNat - 87)
  else if 'A' ≤ c ∧ c ≤ 'F' then some (c.toNat - 55)
  else none

/-- Decodes consecutive pairs of hex digits into bytes; `none` on an odd
count or a non-hex character. -/
def hexPairs : List Char → Option (List Nat)
  | [] => some []
  | [_] => none
  | a :: b :: rest =>
      match hexVal a, hexVal b, hexPairs rest with
      | some x, some y, some tl => some ((x * 16 + y) :: tl)
      | _, _, _ => none

/-- Models Python `bytes.fromhex` (which ignores ASCII spaces and raises
`ValueError`, modelled as `none`, on invalid input). -/
def bytesFromHex (s : List Char) : Option (List Nat) :=
  hexPairs (s.filter (fun c => c != ' '))

/-- Models `src/kraken_api.py` line 31: the secret is hex-decoded when it
is exactly 128 characters long, otherwise its raw UTF-8 bytes are used
(`bytes.fromhex(self.api_secret) if len(self.api_secret) == 128 else
self.api_secret.encode()`). -/
def secret_decoded (api_secret : List Char) : Option (List Nat) :=
  if api_secret.length = 128 then bytesFromHex api_secret else some (utf8 api_secret)

/-- Opaque stand-ins for the external `hashlib` / `hmac` primitives: a
256-bit hash and a keyed 512-bit MAC (key first, message second). -/
structure CryptoPrims where
  sha256 : List Nat → List Nat
  hmacSha512 : List Nat → List Nat → List Nat

/-- Models the shared prefix-stripping step of both `sign_request`
implementations: `endpoint[len('/derivatives'):] if
endpoint.startswith('/derivatives') else endpoint`. -/
def signed_path (endpoint : List Char) : List Char :=
  if (("/derivatives").toList).isPrefixOf endpoint then
    endpoint.drop ((("/derivatives").toList).length)
  else endpoint

/-- Models `KrakenFuturesApi.sign_request` in `src/kraken_api.py`
(lines 26-33): strip the prefix, concatenate `post_data + nonce + path`,
SHA-256 the UTF-8 bytes, decode the secret by string length, HMAC-SHA512
and return the lower-case hex text.  A secret-decoding failure (Python
raises `ValueError`) is `none`. -/
def sign_request_legacy (P : CryptoPrims) (api_secret endpoint nonce post_data : List Char) :
    Option (List Char) :=
  let path := signed_path endpoint
  let message := post_data ++ nonce ++ path
  let hash_digest := P.sha256 (utf8 message)
  match secret_decoded api_secret with
  | none => none
  | some key => some (hexEncode (P.hmacSha512 key hash_digest))

/-- Models `KrakenFuturesApi.sign_request` in `src/kraken_api/client.py`
(lines 34-62): same message construction, the stored secret is always
base64-decoded (taken here as the already-decoded key bytes; the decoding
itself is analysed with `secret_decoded` above), and the MAC is returned
base64-encoded. -/
def sign_request_client (P : CryptoPrims) (secret_bytes : List Nat)
    (endpoint nonce post_data : List Char) : List Char :=
  let path := signed_path endpoint
  let message := post_data ++ nonce ++ path
  let hash_digest := P.sha256 (utf8 message)
  b64encode (P.hmacSha512 secret_bytes hash_digest)

/-- Decimal digit character of a value below ten. -/
def digitChar : Nat → Char
  | 0 => '0' | 1 => '1' | 2 => '2' | 3 => '3' | 4 => '4'
  | 5 => '5' | 6 => '6' | 7 => '7' | 8 => '8' | 9 => '9'
  | _ => '0'

/-- Decimal digits of a number, least-significant first. -/
def digitsRev (n : Nat) : List Nat :=
  if h : n = 0 then [] else (n % 10) :: digitsRev (n / 10)
termination_by n
decreasing_by exact Nat.div_lt_self (Nat.pos_of_ne_zero h) (by norm_num)

/-- Decimal text of a number, models Python `str(n)` for `n : Nat`. -/
def decimalRepr (n : Nat) : List Char :=
  if n = 0 then ['0'] else ((digitsRev n).map digitChar).reverse

/-- Models Python `s.zfill(5)`: pad on the left with `'0'` to width 5. -/
def zfill5 (s : List Char) : List Char :=
  List.replicate (5 - s.length) '0' ++ s

/-- Reads a string of decimal digit characters as a natural number (MSB
first); this is how the spec's "read as decimal integers" is formalised. -/
def readDec (s : List Char) : Nat :=
  s.foldl (fun a c => a * 10 + (c.toNat - 48)) 0

/-- Value of a least-significant-first digit list. -/
def decodeRevNat : List Nat → Nat
  | [] => 0
  | d :: rest => decodeRevNat rest * 10 + d

theorem readDec_foldl_init (b : List Char) :
    ∀ a0 : Nat, b.foldl (fun a c => a * 10 + (c.toNat - 48)) a0 =
      a0 * 10 ^ b.length + b.foldl (fun a c => a * 10 + (c.toNat - 48)) 0 := by
  induction b with
  | nil => intro a0; simp
  | cons c cs ih =>
      intro a0
      simp only [List.foldl_cons, List.length_cons]
      rw [ih (a0 * 10 + (c.toNat - 48)), ih (0 * 10 + (c.toNat - 48))]
      ring

theorem readDec_append (a b : List Char) :
    readDec (a ++ b) = readDec a * 10 ^ b.length + readDec b := by
  unfold readDec
  rw [List.foldl_append, readDec_foldl_init b]

theorem digitChar_toNat : ∀ d : Nat, d < 10 → (digitChar d).toNat - 48 = d := by decide

theorem readDec_digitList (l : List Nat) (h : ∀ d ∈ l, d < 10) :
    readDec ((l.map digitChar).reverse) = decodeRevNat l := by
  induction l with
  | nil => rfl
  | cons d rest ih =>
      simp only [List.map_cons, List.reverse_cons]
      rw [readDec_append]
      have hd : d < 10 := h d (by simp)
      have h1 : readDec [digitChar d] = d := by
        simp [readDec, digitChar_toNat d hd]
      rw [h1, ih (fun x hx => h x (by simp [hx]))]
      simp [decodeRevNat]

theorem decodeRevNat_digitsRev (n : Nat) : decodeRevNat (digitsRev n) = n := by
  induction n using Nat.strong_induction_on with
  | _ n ih =>
      by_cases h : n = 0
      · subst h; rw [digitsRev]; simp [decodeRevNat]
      · rw [digitsRev]
        simp only [h, dite_false]
        rw [decodeRevNat, ih (n / 10) (Nat.div_lt_self (Nat.pos_of_ne_zero h) (by norm_num))]
        omega

theorem digitsRev_lt_ten (n : Nat) : ∀ d ∈ digitsRev n, d < 10 := by
  induction n using Nat.strong_induction_on with
  | _ n ih =>
      by_cases h : n = 0
      · subst h; rw [digitsRev]; simp
      · rw [digitsRev]
        simp only [h, dite_false, List.mem_cons]
        rintro d (rfl | hd)
        · exact Nat.mod_lt n (by norm_num)
        · exact ih (n / 10) (Nat.div_lt_self (Nat.pos_of_ne_zero h) (by norm_num)) d hd

theorem readDec_decimalRepr (n : Nat) : readDec (decimalRepr n) = n := by
  by_cases h : n = 0
  · subst h; rfl
  · unfold decimalRepr
    simp only [h, if_false]
    rw [readDec_digitList _ (digitsRev_lt_ten n), decodeRevNat_digitsRev]

theorem digitsRev_length_le (k : Nat) : ∀ n : Nat, n < 10 ^ k → (digitsRev n).length ≤ k := by
  induction k with
  | zero =>
      intro n hn
      interval_cases n
      rw [digitsRev]; simp
  | succ k ih =>
      intro n hn
      by_cases h : n = 0
      · subst h; rw [digitsRev]; simp
      · rw [digitsRev]
        simp only [h, dite_false, List.length_cons]
        have : n / 10 < 10 ^ k := by
          rw [Nat.div_lt_iff_lt_mul (by norm_num)]
          calc n < 10 ^ (k + 1) := hn
            _ = 10 ^ k * 10 := by ring
        exact Nat.succ_le_succ (ih (n / 10) this)

theorem decimalRepr_length_le (n : Nat) (h : n < 10000) : (decimalRepr n).length ≤ 5 := by
  by_cases h0 : n = 0
  · subst h0; simp [decimalRepr]
  · unfold decimalRepr
    simp only [h0, if_false, List.length_reverse, List.length_map]
    have : (digitsRev n).length ≤ 4 := digitsRev_length_le 4 n (by norm_num; omega)
    omega

theorem readDec_replicate_zero (k : Nat) (s : List Char) :
    readDec (List.replicate k '0' ++ s) = readDec s := by
  induction k with
  | zero => simp
  | succ k ih =>
      rw [List.replicate_succ]
      simpa [readDec] using ih

theorem readDec_zfill5 (s : List Char) : readDec (zfill5 s) = readDec s :=
  readDec_replicate_zero _ s

theorem zfill5_length (s : List Char) (h : s.length ≤ 5) : (zfill5 s).length = 5 := by
  simp [zfill5]; omega

/-- Models `KrakenFuturesApi.create_nonce` (identical in
`src/kraken_api.py` lines 18-24 and `src/kraken_api/client.py` lines
25-32).  Input: the wall-clock milliseconds `int(time.time() * 1000)` and
the current `nonce_counter`; output: the nonce string and the updated
counter. -/
def create_nonce (ms counter : Nat) : List Char × Nat :=
  let c := if counter > 9999 then 0 else counter
  (decimalRepr ms ++ zfill5 (decimalRepr c), c + 1)

/-- Nonces produced by a sequence of `create_nonce` calls whose clock
readings are `mss`, threading the counter state. -/
def runNonces : List Nat → Nat → List (List Char)
  | [], _ => []
  | ms :: rest, c => (create_nonce ms c).1 :: runNonces rest (create_nonce ms c).2

theorem create_nonce_no_wrap (ms c : Nat) (hc : c ≤ 9999) :
    create_nonce ms c = (decimalRepr ms ++ zfill5 (decimalRepr c), c + 1) := by
  simp [create_nonce, Nat.not_lt.mpr hc, show ¬ c > 9999 by omega]

theorem readDec_nonce (ms c : Nat) (hc : c ≤ 9999) :
    readDec (decimalRepr ms ++ zfill5 (decimalRepr c)) = ms * 100000 + c := by
  rw [readDec_append, zfill5_length _ (decimalRepr_length_le c (by omega)),
    readDec_zfill5, readDec_decimalRepr, readDec_decimalRepr]
  norm_num

/-- One OHLC row as shaped by `_fetch_ohlc_data` (`signalGen.py` lines
52-61).  The field `open_` models the dict key `'open'` (`open` is a Lean
keyword). -/
structure Candle where
  timestamp : Int
  open_ : ℚ
  high : ℚ
  low : ℚ
  close : ℚ
  volume : ℚ
  trades : Nat
deriving DecidableEq

/-- The JSON object parsed from the model's reply (`signal_data` in
`_call_deepseek_api`); `none` models an absent key. -/
structure ApiResponse where
  signal : Option String
  stop_price : Option ℚ
  target_price : Option ℚ
  confidence : Option ℚ
  timeframe : Option String
  reasoning : Option String
deriving DecidableEq

/-- Models `signalGen.py` lines 188-189: the required-field check
`all(field in signal_data for field in required_fields)` with
`required_fields = ["signal", "stop_price", "target_price", "reasoning"]`. -/
def validResponse (r : ApiResponse) : Bool :=
  r.signal.isSome && r.stop_price.isSome && r.target_price.isSome && r.reasoning.isSome

/-- Outcome of extracting and parsing the completion content of one HTTP
reply body: either some parse/structure error (`json.JSONDecodeError`,
`KeyError`, ... — all caught by the loop's `except` arms) or the parsed
JSON object. -/
inductive ModelReply where
  | badJson
  | content (r : ApiResponse)
deriving DecidableEq

/-- What the injected transport does on one attempt: a timeout
(`requests.exceptions.Timeout`), another transport error
(`requests.exceptions.RequestException`), or an HTTP reply with a status
code and a body. -/
inductive Attempt where
  | timeout
  | reqError
  | status (code : Nat) (reply : ModelReply)
deriving DecidableEq

/-- Models the `for attempt in range(self.max_retries)` loop of
`_call_deepseek_api` (`signalGen.py` lines 158-221) with an injected
transport; returns the number of attempts actually made together with the
result.  Branches mirror the source: 429 → retry; 401/403 → `return
None`; `raise_for_status` on any other ≥ 400 → caught, retry;
parse/structure errors → caught, retry; a parsed object with all required
fields → `return signal_data`; missing fields → `return None`.
`time.sleep` delays are irrelevant to the result and not modelled. -/
def callLoop (t : Nat → Attempt) : Nat → Nat → Nat × Option ApiResponse
  | attempt, 0 => (attempt, none)
  | attempt, fuel + 1 =>
      match t attempt with
      | .timeout => callLoop t (attempt + 1) fuel
      | .reqError => callLoop t (attempt + 1) fuel
      | .status code reply =>
          if code = 429 then callLoop t (attempt + 1) fuel
          else if code = 401 ∨ code = 403 then (attempt + 1, none)
          else if 400 ≤ code then callLoop t (attempt + 1) fuel
          else
            match reply with
            | .badJson => callLoop t (attempt + 1) fuel
            | .content r =>
                if validResponse r then (attempt + 1, some r) else (attempt + 1, none)

/-- Models `_call_deepseek_api` (`signalGen.py` lines 129-221): with no
API key it returns `None` at once (lines 132-134), otherwise it runs the
retry loop from attempt 0 with `max_retries` as the budget. -/
def call_deepseek_api (apiKey : Option String) (t : Nat → Attempt) (max_retries : Nat) :
    Nat × Option ApiResponse :=
  match apiKey with
  | none => (0, none)
  | some _ => callLoop t 0 max_retries

/-- The signal dict assembled by `generate_signal`; `risk_reward_ratio`
is `none` when that key is absent. -/
structure SignalData where
  signal : String
  symbol : String
  current_price : ℚ
  stop_price : ℚ
  target_price : ℚ
  confidence : ℚ
  timeframe : String
  timestamp : Int
  reasoning : String
  source : String
  risk_reward_ratio : Option ℚ
deriving DecidableEq

/-- Round half to even, as Python's `round` does. -/
def roundHalfEven (q : ℚ) : Int :=
  if q - Int.floor q < 1 / 2 then Int.floor q
  else if q - Int.floor q > 1 / 2 then Int.floor q + 1
  else if Int.floor q % 2 = 0 then Int.floor q else Int.floor q + 1

/-- Models Python `round(x, 2)` over the rational model of floats. -/
def pyRound2 (q : ℚ) : ℚ := (roundHalfEven (q * 100) : ℚ) / 100

/-- Models `signalGen.py` lines 244-271: the dict built from a successful
model response (`.get` defaults applied) followed by the risk/reward
enrichment block, which fires only when the signal is `'BUY'` or
`'SELL'` and both prices are truthy (non-zero), and attaches
`round(reward / risk, 2)` only when `risk > 0`. -/
def build_ai_signal (symbol : String) (current_price : ℚ) (ts : Int) (r : ApiResponse) :
    SignalData :=
  let base : SignalData :=
    { signal := r.signal.getD "HOLD"
      symbol := symbol
      current_price := current_price
      stop_price := r.stop_price.getD 0
      target_price := r.target_price.getD 0
      confidence := r.confidence.getD 0
      timeframe := r.timeframe.getD "N/A"
      timestamp := ts
      reasoning := r.reasoning.getD ""
      source := "deepseek-ai"
      risk_reward_ratio := none }
  if (base.signal = "BUY" ∨ base.signal = "SELL") ∧ base.stop_price ≠ 0 ∧ base.target_price ≠ 0 then
    let risk := if base.signal = "BUY" then current_price - base.stop_price
      else base.stop_price - current_price
    let reward := if base.signal = "BUY" then base.target_price - current_price
      else current_price - base.target_price
    if risk > 0 then { base with risk_reward_ratio := some (pyRound2 (reward / risk)) }
    else base
  else base

/-- Models `_generate_mock_signal` (`signalGen.py` lines 277-309), the
deterministic fallback built from the latest candle. -/
def generate_mock_signal (c : Candle) (symbol : String) : SignalData :=
  if c.close > c.open_ then
    { signal := "BUY", symbol := symbol, current_price := c.close
      stop_price := c.close * 0.98, target_price := c.close * 1.04
      confidence := 50, timeframe := "1-4 hours", timestamp := c.timestamp
      reasoning := "Bullish candle with higher close", source := "mock-fallback"
      risk_reward_ratio := none }
  else if c.close < c.open_ then
    { signal := "SELL", symbol := symbol, current_price := c.close
      stop_price := c.close * 1.02, target_price := c.close * 0.96
      confidence := 50, timeframe := "1-4 hours", timestamp := c.timestamp
      reasoning := "Bearish candle with lower close", source := "mock-fallback"
      risk_reward_ratio := none }
  else
    { signal := "HOLD", symbol := symbol, current_price := c.close
      stop_price := 0, target_price := 0
      confidence := 50, timeframe := "1-4 hours", timestamp := c.timestamp
      reasoning := "Neutral price action", source := "mock-fallback"
      risk_reward_ratio := none }

/-- Models `generate_signal` (`signalGen.py` lines 223-275) with the
market fetch and the transport injected: a failed or empty fetch (`if not
ohlc_data`) yields `None`; otherwise the pipeline calls the model and, on
a `None` reply, falls back to the mock signal for the last candle.
Prompt construction (lines 70-127) is pure text assembly consumed only by
the transport and is not modelled. -/
def generate_signal (apiKey : Option String) (t : Nat → Attempt) (max_retries : Nat)
    (fetched : Option (List Candle)) (symbol : String) : Option SignalData :=
  match fetched with
  | none => none
  | some ohlc =>
      match ohlc.getLast? with
      | none => none
      | some last =>
          match (call_deepseek_api apiKey t max_retries).2 with
          | some r => some (build_ai_signal symbol last.close last.timestamp r)
          | none => some (generate_mock_signal last symbol)

/-! Concrete fixtures used by witnesses and counterexamples. -/

/-- Candle whose close is above its open. -/
def candleUp : Candle :=
  { timestamp := 100, open_ := 1, high := 3, low := 1, close := 2, volume := 5, trades := 7 }

/-- Candle whose close is below its open. -/
def candleDown : Candle :=
  { timestamp := 100, open_ := 2, high := 3, low := 1, close := 1, volume := 5, trades := 7 }

/-- Candle whose close equals its open. -/
def candleFlat : Candle :=
  { timestamp := 100, open_ := 2, high := 3, low := 1, close := 2, volume := 5, trades := 7 }

/-- C1: for every endpoint path, nonce string and post body (and every
choice of the opaque hash/HMAC primitives and secret), both
`sign_request` implementations return the text encoding (hex for
`src/kraken_api.py`, base64 for `src/kraken_api/client.py`) of
HMAC-SHA512(decodedSecret, SHA-256(postBody ++ nonce ++ strippedPath)),
where strippedPath is the endpoint with a leading "/derivatives" prefix
removed if present, and the bytes hashed are exactly the UTF-8 bytes of
the post body, then the nonce, then the stripped path, in that order. -/
theorem C1_sign_request (P : CryptoPrims) (secret_bytes : List Nat)
    (api_secret endpoint nonce post_data : List Char) :
    (let stripped := if (("/derivatives").toList).isPrefixOf endpoint then
        endpoint.drop ((("/derivatives").toList).length) else endpoint
     let digest := P.sha256 (utf8 post_data ++ utf8 nonce ++ utf8 stripped)
     sign_request_client P secret_bytes endpoint nonce post_data =
        b64encode (P.hmacSha512 secret_bytes digest) ∧
     sign_request_legacy P api_secret endpoint nonce post_data =
        (secret_decoded api_secret).map fun key => hexEncode (P.hmacSha512 key digest)) := by
  constructor
  · simp [sign_request_client, signed_path, utf8_append]
  · cases h : secret_decoded api_secret <;>
      simp [sign_request_legacy, signed_path, utf8_append, h]

/-- C2: the fallback signal generator returns BUY with stop `close * 0.98`
and target `close * 1.04` when close > open, SELL with stop
`close * 1.02` and target `close * 0.96` when close < open, and HOLD with
stop = target = 0 when close = open. -/
theorem C2_mock_fallback (c : Candle) (symbol : String) :
    (c.close > c.open_ →
      (generate_mock_signal c symbol).signal = "BUY" ∧
      (generate_mock_signal c symbol).stop_price = c.close * 0.98 ∧
      (generate_mock_signal c symbol).target_price = c.close * 1.04) ∧
    (c.close < c.open_ →
      (generate_mock_signal c symbol).signal = "SELL" ∧
      (generate_mock_signal c symbol).stop_price = c.close * 1.02 ∧
      (generate_mock_signal c symbol).target_price = c.close * 0.96) ∧
    (c.close = c.open_ →
      (generate_mock_signal c symbol).signal = "HOLD" ∧
      (generate_mock_signal c symbol).stop_price = 0 ∧
      (generate_mock_signal c symbol).target_price = 0) := by
  refine ⟨fun h => ?_, fun h => ?_, fun h => ?_⟩
  · simp [generate_mock_signal, h]
  · have h2 : ¬ c.close > c.open_ := lt_asymm h
    simp [generate_mock_signal, h, h2]
  · simp [generate_mock_signal, h]

/-- Witness for C2 at three concrete candles, one per price relation. -/
theorem C2_witness :
    ((generate_mock_signal candleUp "XBTUSD").signal = "BUY" ∧
     (generate_mock_signal candleUp "XBTUSD").stop_price = candleUp.close * 0.98 ∧
     (generate_mock_signal candleUp "XBTUSD").target_price = candleUp.close * 1.04) ∧
    ((generate_mock_signal candleDown "XBTUSD").signal = "SELL" ∧
     (generate_mock_signal candleDown "XBTUSD").stop_price = candleDown.close * 1.02 ∧
     (generate_mock_signal candleDown "XBTUSD").target_price = candleDown.close * 0.96) ∧
    ((generate_mock_signal candleFlat "XBTUSD").signal = "HOLD" ∧
     (generate_mock_signal candleFlat "XBTUSD").stop_price = 0 ∧
     (generate_mock_signal candleFlat "XBTUSD").target_price = 0) :=
  ⟨(C2_mock_fallback candleUp "XBTUSD").1 (by norm_num [candleUp]),
   (C2_mock_fallback candleDown "XBTUSD").2.1 (by norm_num [candleDown]),
   (C2_mock_fallback candleFlat "XBTUSD").2.2 (by norm_num [candleFlat])⟩

/-- C6: within one process, under a non-decreasing millisecond clock, the
nonce strings returned by consecutive `create_nonce` calls are strictly
increasing as decimal integers as long as the counter has not wrapped
past 9999 (here: the run of calls stays within counter range, `c0 +
number of calls ≤ 10000`). -/
theorem C6_nonce_monotone (mss : List Nat) (c0 : Nat)
    (hmono : mss.Chain' (· ≤ ·)) (hwrap : c0 + mss.length ≤ 10000) :
    ((runNonces mss c0).map readDec).Chain' (· < ·) := by
  induction mss generalizing c0 with
  | nil => simp [runNonces]
  | cons ms1 rest ih =>
      cases rest with
      | nil => simp [runNonces]
      | cons ms2 rest2 =>
          have hlen : c0 + (rest2.length + 2) ≤ 10000 := by
            simpa [Nat.add_comm, Nat.add_assoc, Nat.add_left_comm] using hwrap
          have hc0 : c0 ≤ 9999 := by omega
          have hc1 : c0 + 1 ≤ 9999 := by omega
          have e1 : create_nonce ms1 c0 =
              (decimalRepr ms1 ++ zfill5 (decimalRepr c0), c0 + 1) :=
            create_nonce_no_wrap _ _ hc0
          have e2 : create_nonce ms2 (c0 + 1) =
              (decimalRepr ms2 ++ zfill5 (decimalRepr (c0 + 1)), c0 + 1 + 1) :=
            create_nonce_no_wrap _ _ hc1
          have hms : ms1 ≤ ms2 := (List.chain'_cons.mp hmono).1
          have htail := ih (c0 + 1) (List.Chain'.tail hmono) (by simp; omega)
          simp only [runNonces, e1, e2, List.map_cons] at htail ⊢
          rw [List.chain'_cons]
          refine ⟨?_, htail⟩
          rw [readDec_nonce ms1 c0 hc0, readDec_nonce ms2 (c0 + 1) hc1]
          omega

/-- Witness for C6: three calls at clock readings 5, 5, 6 starting from
counter 9997 yield strictly increasing nonce values. -/
theorem C6_witness : ((runNonces [5, 5, 6] 9997).map readDec).Chain' (· < ·) :=
  C6_nonce_monotone [5, 5, 6] 9997
    (List.chain'_cons.mpr ⟨by norm_num,
      List.chain'_cons.mpr ⟨by norm_num, List.chain'_singleton _⟩⟩)
    (by norm_num)

/-- Digit characters of values below ten lie between `'0'` and `'9'`. -/
theorem digitChar_range : ∀ d : Nat, d < 10 → '0' ≤ digitChar d ∧ digitChar d ≤ '9' := by
  decide

/-- Characters of a decimal representation are decimal digit characters. -/
theorem decimalRepr_digits (n : Nat) : ∀ ch ∈ decimalRepr n, '0' ≤ ch ∧ ch ≤ '9' := by
  unfold decimalRepr
  split
  · intro ch hch
    simp at hch
    subst hch
    exact ⟨le_refl _, by decide⟩
  · intro ch hch
    rw [List.mem_reverse, List.mem_map] at hch
    obtain ⟨d, hd, rfl⟩ := hch
    exact digitChar_range d (digitsRev_lt_ten n d hd)

/-- C10: after every `create_nonce` call the nonce counter lies in the
range 0-10000, and the returned nonce string ends in a 5-character
decimal-digit suffix encoding an integer between 0 and 9999. -/
theorem C10_counter_invariant (ms c : Nat) :
    (create_nonce ms c).2 ≤ 10000 ∧
    ∃ suf : List Char, (∃ pre : List Char, (create_nonce ms c).1 = pre ++ suf) ∧
      suf.length = 5 ∧ (∀ ch ∈ suf, '0' ≤ ch ∧ ch ≤ '9') ∧ readDec suf ≤ 9999 := by
  have hceff : (if c > 9999 then 0 else c) ≤ 9999 := by split <;> omega
  constructor
  · simp only [create_nonce]
    omega
  · refine ⟨zfill5 (decimalRepr (if c > 9999 then 0 else c)), ⟨decimalRepr ms, rfl⟩, ?_, ?_, ?_⟩
    · exact zfill5_length _ (decimalRepr_length_le _ (by omega))
    · intro ch hch
      rw [zfill5, List.mem_append] at hch
      rcases hch with hch | hch
      · rw [List.eq_of_mem_replicate hch]
        exact ⟨le_refl _, by decide⟩
      · exact decimalRepr_digits _ ch hch
    · rw [readDec_zfill5, readDec_decimalRepr]
      exact hceff

/-- A transport that always times out exhausts exactly the remaining
attempt budget and yields no response. -/
theorem callLoop_all_timeout (t : Nat → Attempt) (ht : ∀ i, t i = Attempt.timeout) :
    ∀ fuel attempt, callLoop t attempt fuel = (attempt + fuel, none) := by
  intro fuel
  induction fuel with
  | zero => intro attempt; simp [callLoop]
  | succ fuel ih =>
      intro attempt
      simp only [callLoop, ht attempt, ih (attempt + 1)]
      have h : attempt + 1 + fuel = attempt + (fuel + 1) := by omega
      rw [h]

/-- The fallback signal is tagged `"mock-fallback"` in every branch. -/
theorem mock_source (c : Candle) (symbol : String) :
    (generate_mock_signal c symbol).source = "mock-fallback" := by
  unfold generate_mock_signal
  split
  · rfl
  · split <;> rfl

/-- C3: when every attempt against the inference endpoint times out,
`_call_deepseek_api` makes exactly the configured number of attempts and
returns no response, and `generate_signal` then returns the
fallback-tagged signal built from the last fetched candle instead of
failing. -/
theorem C3_timeout_fallback (k symbol : String) (t : Nat → Attempt) (m : Nat)
    (ht : ∀ i, t i = Attempt.timeout) (ohlc : List Candle) (last : Candle)
    (hlast : ohlc.getLast? = some last) :
    call_deepseek_api (some k) t m = (m, none) ∧
    generate_signal (some k) t m (some ohlc) symbol = some (generate_mock_signal last symbol) ∧
    (generate_mock_signal last symbol).source = "mock-fallback" := by
  have hc : call_deepseek_api (some k) t m = (m, none) := by
    simp [call_deepseek_api, callLoop_all_timeout t ht m 0]
  exact ⟨hc, by simp [generate_signal, hlast, hc], mock_source last symbol⟩

/-- Transport that times out on every attempt. -/
def tTimeout : Nat → Attempt := fun _ => Attempt.timeout

/-- Witness for C3 with the default budget of 3 attempts. -/
theorem C3_witness :
    call_deepseek_api (some "key") tTimeout 3 = (3, none) ∧
    generate_signal (some "key") tTimeout 3 (some [candleUp]) "XBTUSD" =
      some (generate_mock_signal candleUp "XBTUSD") ∧
    (generate_mock_signal candleUp "XBTUSD").source = "mock-fallback" :=
  C3_timeout_fallback "key" "XBTUSD" tTimeout 3 (fun _ => rfl) [candleUp] candleUp rfl

/-- A parsed model response missing the required `reasoning` field. -/
def respNoReasoning : ApiResponse :=
  { signal := some "BUY", stop_price := some 95, target_price := some 105,
    confidence := some 80, timeframe := some "1h", reasoning := none }

/-- Transport that always returns HTTP 200 with a JSON body missing a
required field. -/
def tInvalidFields : Nat → Attempt :=
  fun _ => Attempt.status 200 (ModelReply.content respNoReasoning)

set_option maxRecDepth 10000 in
/-- C4 counterexample: with a budget of 3 and every reply a well-formed
JSON object missing `reasoning`, only 1 attempt is made — the missing
field does NOT count toward the retry budget and trigger another attempt
as the claim states; the code returns `None` immediately (the run still
ends in the fallback, never a partially-filled signal). -/
theorem C4_counterexample :
    call_deepseek_api (some "key") tInvalidFields 3 = (1, none) ∧
    generate_signal (some "key") tInvalidFields 3 (some [candleUp]) "XBTUSD" =
      some (generate_mock_signal candleUp "XBTUSD") ∧
    (1 : Nat) ≠ 3 :=
  ⟨rfl, rfl, by decide⟩

/-- C4 amended: a 2xx model response that parses as JSON but fails the
required-field check makes `_call_deepseek_api` return `None` immediately
after that attempt — skipping the remaining budget rather than retrying —
and `generate_signal` then returns the fallback signal; the partial
response is never propagated. -/
theorem C4_amended (k symbol : String) (t : Nat → Attempt) (m : Nat) (r : ApiResponse)
    (h0 : t 0 = Attempt.status 200 (ModelReply.content r)) (hv : validResponse r = false)
    (hm : 0 < m) (ohlc : List Candle) (last : Candle) (hlast : ohlc.getLast? = some last) :
    call_deepseek_api (some k) t m = (1, none) ∧
    generate_signal (some k) t m (some ohlc) symbol = some (generate_mock_signal last symbol) := by
  obtain ⟨m', rfl⟩ : ∃ m', m = m' + 1 := ⟨m - 1, by omega⟩
  have hc : call_deepseek_api (some k) t (m' + 1) = (1, none) := by
    simp [call_deepseek_api, callLoop, h0, hv]
  exact ⟨hc, by simp [generate_signal, hlast, hc]⟩

/-- Witness for C4's amended claim at a concrete transport and budget 2. -/
theorem C4_witness :
    call_deepseek_api (some "key") tInvalidFields 2 = (1, none) ∧
    generate_signal (some "key") tInvalidFields 2 (some [candleDown]) "ETHUSD" =
      some (generate_mock_signal candleDown "ETHUSD") :=
  C4_amended "key" "ETHUSD" tInvalidFields 2 respNoReasoning rfl rfl (by norm_num)
    [candleDown] candleDown rfl

/-- A 128-character secret of hex digits. -/
def secretOnes : List Char := List.replicate 128 '1'

/-- A 128-character secret that is not valid hex. -/
def secretG : List Char := List.replicate 128 'g'

/-- Concrete choice of the opaque crypto primitives. -/
def primsId : CryptoPrims := { sha256 := id, hmacSha512 := fun _ m => m }

set_option maxRecDepth 40000 in
/-- C5 counterexample: `src/kraken_api.py` silently guesses the secret's
encoding from the string's length — a 128-character secret is hex-decoded
while any other secret is used as raw UTF-8 bytes, so no single encoding
is fixed at configuration time (and no `ConfigurationError` exists in the
repository). -/
theorem C5_counterexample :
    secret_decoded secretOnes = some (List.replicate 64 17) ∧
    secret_decoded ['1'] = some [49] ∧
    utf8 secretOnes = List.replicate 128 49 ∧
    (List.replicate 64 17 : List Nat) ≠ List.replicate 128 49 := by
  refine ⟨by decide, rfl, by decide, by decide⟩

/-- C5 amended: in `src/kraken_api.py` the secret's decoding is chosen
silently from the secret string's length — exactly-128-character secrets
are hex-decoded, all others are used as raw UTF-8 bytes — and when the
hex decode fails, `sign_request` fails with an uncaught `ValueError`
(modelled as `none`), not with a `ConfigurationError` (no such error
exists in the repository); `src/kraken_api/client.py` instead always
base64-decodes. -/
theorem C5_amended (P : CryptoPrims) (s endpoint nonce post_data : List Char) :
    (s.length = 128 → secret_decoded s = bytesFromHex s) ∧
    (s.length ≠ 128 → secret_decoded s = some (utf8 s)) ∧
    (secret_decoded s = none →
      sign_request_legacy P s endpoint nonce post_data = none) := by
  refine ⟨fun h => ?_, fun h => ?_, fun h => ?_⟩
  · simp [secret_decoded, h]
  · simp [secret_decoded, h]
  · simp [sign_request_legacy, h]

set_option maxRecDepth 40000 in
/-- Witness for C5's amended claim: a 128-character invalid-hex secret is
routed to the hex decoder and makes signing fail; a short secret is used
as raw UTF-8 bytes. -/
theorem C5_witness :
    secret_decoded secretG = bytesFromHex secretG ∧
    secret_decoded ['a'] = some (utf8 ['a']) ∧
    sign_request_legacy primsId secretG [] [] [] = none :=
  ⟨(C5_amended primsId secretG [] [] []).1 (by decide),
   (C5_amended primsId ['a'] [] [] []).2.1 (by decide),
   (C5_amended primsId secretG [] [] []).2.2 (by decide)⟩

/-- A valid (all required fields present) response whose signal value is
not one of BUY/SELL/HOLD. -/
def respLong : ApiResponse :=
  { signal := some "LONG", stop_price := some 95, target_price := some 105,
    confidence := some 70, timeframe := some "1h", reasoning := some "momentum" }

/-- Transport that always delivers `respLong` with HTTP 200. -/
def tLong : Nat → Attempt := fun _ => Attempt.status 200 (ModelReply.content respLong)

set_option maxRecDepth 10000 in
/-- C7 counterexample: a validated response carrying the unrecognized
signal value "LONG" is passed through to the pipeline's output unchanged
— the output signal is "LONG", not "HOLD" as the claim states. -/
theorem C7_counterexample :
    validResponse respLong = true ∧
    (generate_signal (some "key") tLong 3 (some [candleUp]) "XBTUSD").map SignalData.signal =
      some "LONG" ∧
    ("LONG" : String) ≠ "HOLD" :=
  ⟨rfl, rfl, by decide⟩

/-- C7 amended: the output signal is the response's signal value when the
`signal` key is present — any unrecognized value is passed through
unchanged, without erroring — and "HOLD" is substituted only when the key
is absent, a case the required-field validation precludes. -/
theorem C7_amended (symbol : String) (cp : ℚ) (ts : Int) (r : ApiResponse) :
    (build_ai_signal symbol cp ts r).signal = r.signal.getD "HOLD" ∧
    (validResponse r = true →
      ∃ s, r.signal = some s ∧ (build_ai_signal symbol cp ts r).signal = s) := by
  have h1 : (build_ai_signal symbol cp ts r).signal = r.signal.getD "HOLD" := by
    simp only [build_ai_signal]
    split_ifs <;> rfl
  refine ⟨h1, fun hv => ?_⟩
  cases hs : r.signal with
  | none => simp [validResponse, hs] at hv
  | some s => exact ⟨s, rfl, by rw [h1, hs]; rfl⟩

/-- Witness for C7's amended claim at the concrete "LONG" response. -/
theorem C7_witness :
    (build_ai_signal "XBTUSD" 2 100 respLong).signal = (respLong.signal).getD "HOLD" ∧
    (∃ s, respLong.signal = some s ∧ (build_ai_signal "XBTUSD" 2 100 respLong).signal = s) :=
  ⟨(C7_amended "XBTUSD" 2 100 respLong).1, (C7_amended "XBTUSD" 2 100 respLong).2 rfl⟩

/-- A valid BUY response with stop 97 and target 104. -/
def respBuyThird : ApiResponse :=
  { signal := some "BUY", stop_price := some 97, target_price := some 104,
    confidence := some 70, timeframe := some "1h", reasoning := some "trend" }

/-- A valid BUY response whose stop is above the current price of 100. -/
def respBuyStopAbove : ApiResponse :=
  { signal := some "BUY", stop_price := some 105, target_price := some 110,
    confidence := some 70, timeframe := some "1h", reasoning := some "trend" }

/-- A valid SELL response with stop 103 and target 95. -/
def respSellResp : ApiResponse :=
  { signal := some "SELL", stop_price := some 103, target_price := some 95,
    confidence := some 70, timeframe := some "1h", reasoning := some "trend" }

/-- C8 counterexample: at current price 100, stop 97, target 104 (risk 3,
reward 4) the code stores `round(reward / risk, 2) = 1.33`, which is not
`reward / risk = 4/3` — the ratio the claim asserts. -/
theorem C8_counterexample :
    (build_ai_signal "XBTUSD" 100 0 respBuyThird).risk_reward_ratio = some (133 / 100 : ℚ) ∧
    ((104 - 100 : ℚ) / (100 - 97)) ≠ (133 / 100 : ℚ) := by
  constructor
  · norm_num [build_ai_signal, respBuyThird, pyRound2, roundHalfEven]
  · norm_num

/-- C8 amended: for a response with signal BUY or SELL and both prices
present and non-zero, risk and reward are computed exactly as the claim
states, and the output carries `risk_reward_ratio = round(reward / risk,
2)` (rounded to two decimal places) exactly when risk > 0; when risk ≤ 0
the ratio field is absent and no error is raised. -/
theorem C8_amended (symbol : String) (cp sp tp : ℚ) (ts : Int) (r : ApiResponse)
    (hs : r.stop_price = some sp) (ht : r.target_price = some tp)
    (hsp : sp ≠ 0) (htp : tp ≠ 0) :
    (r.signal = some "BUY" →
      (cp - sp > 0 →
        (build_ai_signal symbol cp ts r).risk_reward_ratio =
          some (pyRound2 ((tp - cp) / (cp - sp)))) ∧
      (cp - sp ≤ 0 → (build_ai_signal symbol cp ts r).risk_reward_ratio = none)) ∧
    (r.signal = some "SELL" →
      (sp - cp > 0 →
        (build_ai_signal symbol cp ts r).risk_reward_ratio =
          some (pyRound2 ((cp - tp) / (sp - cp)))) ∧
      (sp - cp ≤ 0 → (build_ai_signal symbol cp ts r).risk_reward_ratio = none)) := by
  constructor
  · intro hsig
    constructor
    · intro hrisk
      simp [build_ai_signal, hs, ht, hsig, hsp, htp, hrisk]
    · intro hrisk
      simp [build_ai_signal, hs, ht, hsig, hsp, htp, not_lt.mpr hrisk]
  · intro hsig
    constructor
    · intro hrisk
      simp [build_ai_signal, hs, ht, hsig, hsp, htp, hrisk]
    · intro hrisk
      simp [build_ai_signal, hs, ht, hsig, hsp, htp, not_lt.mpr hrisk]

/-- Witness for C8's amended claim: a BUY with positive risk, a BUY with
non-positive risk, and a SELL with positive risk, all at current price
100. -/
theorem C8_witness :
    (build_ai_signal "XBTUSD" 100 0 respBuyThird).risk_reward_ratio =
      some (pyRound2 ((104 - 100) / (100 - 97))) ∧
    (build_ai_signal "XBTUSD" 100 0 respBuyStopAbove).risk_reward_ratio = none ∧
    (build_ai_signal "XBTUSD" 100 0 respSellResp).risk_reward_ratio =
      some (pyRound2 ((100 - 95) / (103 - 100))) :=
  ⟨((C8_amended "XBTUSD" 100 97 104 0 respBuyThird rfl rfl (by norm_num) (by norm_num)).1
      rfl).1 (by norm_num),
   ((C8_amended "XBTUSD" 100 105 110 0 respBuyStopAbove rfl rfl (by norm_num) (by norm_num)).1
      rfl).2 (by norm_num),
   ((C8_amended "XBTUSD" 100 103 95 0 respSellResp rfl rfl (by norm_num) (by norm_num)).2
      rfl).1 (by norm_num)⟩

/-- C9: when the inference API key is absent, `_call_deepseek_api`
returns `None` after zero attempts, and `generate_signal` with a
successful market fetch yields the deterministic fallback signal for the
last candle instead of failing the run. -/
theorem C9_missing_key (t : Nat → Attempt) (m : Nat) (symbol : String)
    (ohlc : List Candle) (last : Candle) (hlast : ohlc.getLast? = some last) :
    call_deepseek_api none t m = (0, none) ∧
    generate_signal none t m (some ohlc) symbol = some (generate_mock_signal last symbol) :=
  ⟨rfl, by simp [generate_signal, hlast, call_deepseek_api]⟩

/-- Witness for C9 at a concrete transport and candle list. -/
theorem C9_witness :
    call_deepseek_api none tLong 3 = (0, none) ∧
    generate_signal none tLong 3 (some [candleFlat]) "XBTUSD" =
      some (generate_mock_signal candleFlat "XBTUSD") :=
  C9_missing_key tLong 3 "XBTUSD" [candleFlat] candleFlat rfl

end Spec2Proof
